import Mathlib

/-!
Verification of the ReelMe recommendation core (recommendation engine,
ranking utility, and the save-preferences API route) against its
natural-language specification.

The TypeScript source is shallowly embedded:
* JavaScript numbers that stay real-valued in the embedded code paths are
  modelled as `ℚ` (the source only ever adds, subtracts, multiplies and
  divides by nonzero literals on these paths, so exact rationals are a
  faithful carrier); the one place where `NaN` is reachable (parsing a
  movie release date in `scoreMovie`) is modelled explicitly by the
  `JSNum` type below, whose operations propagate `NaN` exactly as
  JavaScript arithmetic and `Math.max`/`Math.min`/`Math.abs` do.
* JavaScript objects used as keyed score maps (`{ [genreId]: number }`)
  are modelled as total functions `ℤ → ℚ` defaulting to `0`: the source
  reads them with `genreScores[g] || 0` and tests membership by
  truthiness (`if (genreScores[g])`), and every value it ever stores is
  positive, so absent-key and zero-value are indistinguishable to the
  embedded code, just as they are to the JavaScript truthiness test.
* `Object.entries` insertion order over string keys is modelled by
  `entryKeys`, which lists keys in first-occurrence order.
* Asynchronous page fetches are modelled by their outcomes: a page fetch
  is an `Except String (List Movie)` (the source's `discoverMovies`
  either resolves with a movie list or rejects with an error), and
  `Promise.all` is `promiseAll`, failing iff some element fails.
* `new Date(s).getFullYear()` is modelled by pre-parsing: movie records
  carry `release_year : Option ℤ`, where `none` stands for an absent or
  unparseable `release_date` string (for which JavaScript produces
  `NaN`).
* `new Date().getFullYear()` (the wall clock) is an explicit
  `currentYear : ℤ` parameter.
-/

/-! ## JavaScript number and object-map helpers -/

/-- JavaScript `Math.round`: round to the nearest integer, halves toward
positive infinity. -/
def jsRound (q : ℚ) : ℤ := ⌊q + 1 / 2⌋

/-- JavaScript `Math.min(...list)` for a list known to be nonempty at every
use site in scope of a claim (on `[]` the source produces `Infinity`,
which no claim exercises; we return `0` there). -/
def jsMinList : List ℤ → ℤ
  | [] => 0
  | x :: xs => xs.foldl min x

/-- JavaScript `Math.max(...list)`; see `jsMinList` for the empty case
(the source produces `-Infinity` there, unexercised by every claim). -/
def jsMaxList : List ℤ → ℤ
  | [] => 0
  | x :: xs => xs.foldl max x

/-- Pointwise update of a score map, `obj[k] = v`. -/
def fupdate (f : ℤ → ℚ) (k : ℤ) (v : ℚ) : ℤ → ℚ :=
  fun x => if x = k then v else f x

/-- Append a key if it has not been seen yet: the step JavaScript object
insertion takes for each assignment, as far as `Object.entries` order is
concerned. -/
def insertEntry {α : Type} [DecidableEq α] (l : List α) (k : α) : List α :=
  if k ∈ l then l else l ++ [k]

/-- Keys of a JavaScript object built by assigning the elements of `l` in
order: each key once, in first-occurrence order (`Object.entries`
enumeration order for non-integer-like keys). -/
def entryKeys {α : Type} [DecidableEq α] (l : List α) : List α :=
  l.foldl insertEntry []

/-- JavaScript number that may be `NaN`. Only the release-year path of
`scoreMovie` can actually produce `NaN`; all other embedded quantities
stay in the `num` fragment. -/
inductive JSNum : Type
  | nan : JSNum
  | num (q : ℚ) : JSNum
deriving DecidableEq

namespace JSNum

/-- JavaScript `+` (NaN-propagating). -/
def add : JSNum → JSNum → JSNum
  | num a, num b => num (a + b)
  | _, _ => nan

/-- JavaScript binary `-` (NaN-propagating). -/
def sub : JSNum → JSNum → JSNum
  | num a, num b => num (a - b)
  | _, _ => nan

/-- JavaScript `/`. The embedded code only divides by the nonzero
literals 2, 5, 10 and 100, where JavaScript division agrees with exact
rational division; a zero divisor (unreachable here) is mapped to `nan`. -/
def div : JSNum → JSNum → JSNum
  | num a, num b => if b = 0 then nan else num (a / b)
  | _, _ => nan

/-- JavaScript `Math.abs` (NaN-propagating). -/
def abs : JSNum → JSNum
  | num a => num |a|
  | nan => nan

/-- JavaScript `Math.max` of two arguments: `NaN` if either argument is
`NaN`. -/
def max : JSNum → JSNum → JSNum
  | num a, num b => num (Max.max a b)
  | _, _ => nan

/-- JavaScript `<`: false whenever either side is `NaN`. -/
def lt : JSNum → JSNum → Bool
  | num a, num b => decide (a < b)
  | _, _ => false

end JSNum

/-! ## Data model (src/types/index.ts)

Fields the embedded functions never read (title, poster path, overview,
backdrop, language) are omitted; `release_date : string` appears as its
parsed year (see the header comment). -/

/-- Movie record from the catalog (interface `Movie`). -/
structure Movie : Type where
  id : ℤ
  /-- Parsed `new Date(release_date).getFullYear()`; `none` when the
  date string is absent or unparseable (JavaScript `NaN`). -/
  release_year : Option ℤ
  vote_average : ℚ
  genre_ids : Option (List ℤ)
  runtime : Option ℚ
  popularity : Option ℚ
deriving DecidableEq

/-- Seed movie (interface `SeedMovie`): an enriched snapshot whose fields
are all present. -/
structure SeedMovie : Type where
  id : ℤ
  genre_ids : List ℤ
  keywords : List String
  runtime : ℚ
  release_year : ℤ
  vote_average : ℚ
deriving DecidableEq

/-- Preference profile (interface `PreferenceProfile`). The genre score
map is a total function defaulting to 0 (see the header comment). -/
structure PreferenceProfile : Type where
  genreScores : ℤ → ℚ
  keywords : List String
  preferredRuntime : ℚ
  preferredYearRange : ℤ × ℤ
  minRating : ℚ

/-! ## Profile Builder (buildPreferenceProfile, recommendations engine) -/

/-- First pass of the genre-score accumulation: every explicitly selected
genre is written with base score 10
(`selectedGenres.forEach((genreId) => { genreScores[genreId] = 10 })`). -/
def selectedGenresPass (selectedGenres : List ℤ) : ℤ → ℚ :=
  selectedGenres.foldl (fun gs genreId => fupdate gs genreId 10) (fun _ => 0)

/-- One seed-movie genre contribution:
`if (genreScores[genreId]) { += 3 } else { = 5 }`. The JavaScript guard
is truthiness of the stored value, i.e. "present and nonzero"; with the
default-0 map model this is exactly `gs genreId ≠ 0`. -/
def seedGenreStep (gs : ℤ → ℚ) (genreId : ℤ) : ℤ → ℚ :=
  if gs genreId ≠ 0 then fupdate gs genreId (gs genreId + 3)
  else fupdate gs genreId 5

/-- Second pass: seed movies in input order, each movie's genres in list
order. -/
def seedMoviesPass (seedMovies : List SeedMovie) (gs : ℤ → ℚ) : ℤ → ℚ :=
  seedMovies.foldl (fun gs movie => movie.genre_ids.foldl seedGenreStep gs) gs

/-- Concatenation of the seed movies' keyword lists in input order: the
sequence of `keywordCounts[keyword] = (keywordCounts[keyword] || 0) + 1`
assignments. -/
def allSeedKeywords (seedMovies : List SeedMovie) : List String :=
  (seedMovies.map SeedMovie.keywords).flatten

/-- Profile Builder (`buildPreferenceProfile`). `currentYear` is the
source's `new Date().getFullYear()`. The source performs no input
validation here; length-0 input (division by length, spread min/max) is
outside every claim and behaves as documented on `jsMinList`. -/
def buildPreferenceProfile (currentYear : ℤ) (seedMovies : List SeedMovie)
    (selectedGenres : List ℤ) : PreferenceProfile :=
  let genreScores := seedMoviesPass seedMovies (selectedGenresPass selectedGenres)
  let keywordSeq := allSeedKeywords seedMovies
  let commonKeywords :=
    (entryKeys keywordSeq).filter (fun kw => 2 ≤ keywordSeq.count kw)
  let totalRuntime := (seedMovies.map SeedMovie.runtime).sum
  let preferredRuntime := ((jsRound (totalRuntime / (seedMovies.length : ℚ))) : ℚ)
  let years := seedMovies.map SeedMovie.release_year
  let minYear := jsMinList years
  let maxYear := jsMaxList years
  let yearRange : ℤ × ℤ :=
    (Max.max (minYear - 5) 1980, Min.min (maxYear + 3) (currentYear + 1))
  let avgRating := (seedMovies.map SeedMovie.vote_average).sum / (seedMovies.length : ℚ)
  let minRating := Max.max (avgRating - 3 / 2) 6
  { genreScores := genreScores
    keywords := commonKeywords
    preferredRuntime := preferredRuntime
    preferredYearRange := yearRange
    minRating := minRating }

/-! ## Scorer (scoreMovie, recommendations engine)

The source accumulates `score` sequentially and guards the runtime,
genre and popularity components by truthiness of the corresponding movie
field. A skipped guard is embedded as adding the component value `0`
(adding real `0` is the identity on every JavaScript number, including
`NaN`), so each component is a separate definition whose value is `0`
exactly when the source skips or contributes nothing. Only the
release-year component can leave the real fragment: there is no guard on
`movie.release_date`, and `new Date(...).getFullYear()` of a missing or
unparseable date is `NaN`, which then propagates through the sum. -/

/-- Component 1, genre match: sum of profile scores over the movie's
genre ids, capped at 30 (`Math.min(genreScore, 30)`); skipped (0) when
`genre_ids` is absent. An empty array is truthy in JavaScript and
contributes `Math.min(0, 30) = 0`, which the `some` branch reproduces. -/
def genreMatchScore (m : Movie) (p : PreferenceProfile) : ℚ :=
  match m.genre_ids with
  | some gids => Min.min (gids.foldl (fun sum genreId => sum + p.genreScores genreId) 0) 30
  | none => 0

/-- Component 2, runtime similarity:
`Math.max(10 - |runtime - preferredRuntime| / 10, 0)`, guarded by
truthiness of `movie.runtime` (absent or `0` skips). -/
def runtimeScore (m : Movie) (p : PreferenceProfile) : ℚ :=
  match m.runtime with
  | some r =>
      if r = 0 then 0 else Max.max (10 - |r - p.preferredRuntime| / 10) 0
  | none => 0

/-- Component 3, release-year proximity, unguarded:
`Math.max(10 - |movieYear - (minYear+maxYear)/2| / 5, 0)` where
`movieYear` is `NaN` for an unparseable date, in which case every
operation here propagates `NaN`. -/
def yearScoreJS (m : Movie) (p : PreferenceProfile) : JSNum :=
  let movieYear : JSNum :=
    match m.release_year with
    | some y => JSNum.num (y : ℚ)
    | none => JSNum.nan
  let midYear : ℚ := ((p.preferredYearRange.1 : ℚ) + (p.preferredYearRange.2 : ℚ)) / 2
  let yearDiff := (movieYear.sub (JSNum.num midYear)).abs
  JSNum.max ((JSNum.num 10).sub (yearDiff.div (JSNum.num 5))) (JSNum.num 0)

/-- Component 4, rating bonus:
`Math.min(Math.max((vote_average - minRating) * 2, 0), 10)`. -/
def ratingBonusScore (m : Movie) (p : PreferenceProfile) : ℚ :=
  Min.min (Max.max ((m.vote_average - p.minRating) * 2) 0) 10

/-- Component 5, popularity bonus: `Math.min(popularity / 100, 5)`,
guarded by truthiness of `movie.popularity` (absent or `0` skips; a
skipped `0` would have contributed `Math.min(0, 5) = 0` anyway). -/
def popularityScore (m : Movie) : ℚ :=
  match m.popularity with
  | some pop => if pop = 0 then 0 else Min.min (pop / 100) 5
  | none => 0

/-- Scorer (`scoreMovie`): the sequential sum of the five components,
starting from `score = 0`, in source order. -/
def scoreMovie (m : Movie) (p : PreferenceProfile) : JSNum :=
  (((((JSNum.num 0).add (JSNum.num (genreMatchScore m p))).add
        (JSNum.num (runtimeScore m p))).add
      (yearScoreJS m p)).add
    (JSNum.num (ratingBonusScore m p))).add
  (JSNum.num (popularityScore m))

/-- Movie with one genre id appended to its genre set, all other fields
fixed (adding to an absent set creates the one-element set). -/
def addGenre (m : Movie) (g : ℤ) : Movie :=
  { m with genre_ids := some (m.genre_ids.getD [] ++ [g]) }

/-! ## Candidate Retriever (fetchCandidateMovies, recommendations engine)

The Catalog Client is an external collaborator: each issued page fetch
is represented by its outcome, `discover page : Except String (List
Movie)` standing for the settled promise of
`discoverMovies({genreIds: top 5 genres by score, minVoteCount: 300,
minVoteAverage, minYear, maxYear, page})`, which either resolves with
the page's movies or rejects (the source's `discoverMovies` rethrows
every failure as an error). No claim depends on the filter values, only
on the per-page outcomes. -/

/-- JavaScript `Promise.all` on settled outcomes: resolves with the list
of results iff every element resolved, otherwise rejects with a failed
element's error (the source's rejection order among multiple failures is
timing-dependent; we pick the first in page order, and no claim inspects
which). -/
def promiseAll {ε α : Type} : List (Except ε α) → Except ε (List α)
  | [] => .ok []
  | .ok a :: rest => (promiseAll rest).map (fun l => a :: l)
  | .error e :: _ => .error e

/-- Number of pages issued: `Math.min(Math.ceil(maxMovies / 20), 10)`. -/
def pagesToFetch (maxMovies : ℕ) : ℕ :=
  Min.min ((maxMovies + 19) / 20) 10

/-- One `Map.set(movie.id, movie)` step of
`new Map(candidates.map((movie) => [movie.id, movie]))`: a fresh id is
appended; a repeated id keeps its first-seen position but its value is
replaced by the later movie record. -/
def mapUpsert (acc : List Movie) (m : Movie) : List Movie :=
  if acc.any (fun x => x.id = m.id) then
    acc.map (fun x => if x.id = m.id then m else x)
  else acc ++ [m]

/-- Values of the id-keyed JavaScript Map built from `l` in order:
deduplication by movie id, first-seen key order, last-seen value. -/
def jsMapDedupe (l : List Movie) : List Movie :=
  l.foldl mapUpsert []

/-- Merge tail of the retriever: dedupe by id, then
`.slice(0, maxMovies)`. -/
def dedupeAndTruncate (candidates : List Movie) (maxMovies : ℕ) : List Movie :=
  (jsMapDedupe candidates).take maxMovies

/-- Candidate Retriever (`fetchCandidateMovies`); `maxMovies` defaults to
200 at the call sites (300 for the group pipeline). -/
def fetchCandidateMovies (discover : ℕ → Except String (List Movie))
    (maxMovies : ℕ) : Except String (List Movie) :=
  (promiseAll ((List.range (pagesToFetch maxMovies)).map
      (fun i => discover (i + 1)))).map
    (fun results => dedupeAndTruncate results.flatten maxMovies)

/-! ## Group Aggregator (generateGroupRecommendations, pure aggregation
part, source lines building `aggregatedProfile`)

The genre-score aggregation is embedded pointwise: the source sums each
present key and then divides every present key by the participant count;
with default-0 score maps the absent keys are 0 and `0 / n = 0`, so the
per-key sum-then-divide coincides with the pointwise mean below. Empty
input (division by zero, spread min/max of nothing) is outside every
claim, as for `buildPreferenceProfile`. -/

/-- Aggregated group profile built from the participants' profiles. -/
def aggregateProfiles (profiles : List PreferenceProfile) : PreferenceProfile :=
  let n : ℚ := (profiles.length : ℚ)
  let aggregatedGenreScores : ℤ → ℚ :=
    fun g => (profiles.map (fun p => p.genreScores g)).sum / n
  let keywordSeq := (profiles.map PreferenceProfile.keywords).flatten
  let threshold : ℕ := (profiles.length + 1) / 2
  let aggregatedKeywords :=
    (entryKeys keywordSeq).filter (fun kw => threshold ≤ keywordSeq.count kw)
  let avgRuntime :=
    ((jsRound ((profiles.map PreferenceProfile.preferredRuntime).sum / n)) : ℚ)
  let yearRange : ℤ × ℤ :=
    (jsMinList (profiles.map (fun p => p.preferredYearRange.1)),
     jsMaxList (profiles.map (fun p => p.preferredYearRange.2)))
  let avgMinRating := (profiles.map PreferenceProfile.minRating).sum / n
  { genreScores := aggregatedGenreScores
    keywords := aggregatedKeywords
    preferredRuntime := avgRuntime
    preferredYearRange := yearRange
    minRating := avgMinRating }

/-! ## Ranking utility (rankMovies, src/lib/utils.ts)

JavaScript `Array.prototype.sort` with a consistent comparator is a
stable sort by that comparator; it is embedded as `List.mergeSort` with
the Boolean relation "comparator(a, b) <= 0". Release years are
pre-parsed as elsewhere; for an unparseable date the real comparator
returns `NaN` (whose sort order is implementation-defined), so the
ranking theorem assumes parseable dates and the embedded comparator may
read a placeholder year 0 only outside that hypothesis. -/

/-- Count of the movie's genre ids lying in the selected-genre set
(`a.genre_ids?.filter((id) => selectedGenres.includes(id)).length || 0`). -/
def genreOverlap (selectedGenres : List ℤ) (m : Movie) : ℕ :=
  ((m.genre_ids.getD []).filter (fun id => decide (id ∈ selectedGenres))).length

/-- Comparator of `rankMovies` as a Boolean "may precede" relation:
rating descending, then release year descending, then genre overlap
descending. -/
def rankLe (selectedGenres : List ℤ) (a b : Movie) : Bool :=
  if a.vote_average ≠ b.vote_average then decide (b.vote_average < a.vote_average)
  else if a.release_year.getD 0 ≠ b.release_year.getD 0 then
    decide (b.release_year.getD 0 < a.release_year.getD 0)
  else decide (genreOverlap selectedGenres b ≤ genreOverlap selectedGenres a)

/-- Ranking utility (`rankMovies`): stable sort of a copy of the pool by
the comparator. -/
def rankMovies (movies : List Movie) (selectedGenres : List ℤ) : List Movie :=
  movies.mergeSort (rankLe selectedGenres)

/-! ## Save-preferences API route
(src/pages/api/rooms/[roomId]/preferences.ts)

The route's decision logic is embedded as a pure function of the request
fields and of the outcomes of its two external reads: the Firestore room
lookup (`none` = missing document) and `fetchSeedMovies` (which never
rejects: it drops failed lookups, so its result is the list of
successfully enriched seeds). Firestore write/read exceptions (the 500
path) are persistence-layer I/O outside the embedded core. Only the
participant list of the room document is read by the embedded decision
logic. -/

/-- Room participant; display fields not read by the embedded logic are
omitted. -/
structure Participant : Type where
  id : String
deriving DecidableEq

/-- Room document fields read by the embedded decision logic. -/
structure Room : Type where
  participants : List Participant
deriving DecidableEq

/-- User preferences object assembled by the route (interface
`UserPreferences`). -/
structure UserPreferences : Type where
  participantId : String
  selectedGenres : List ℤ
  seedMovies : List SeedMovie
  profile : Option PreferenceProfile
  createdAt : String

/-- Outcome of the route: the HTTP response category and payload. `ok`
carries the `UserPreferences` (with its freshly built profile) that the
route persists and returns; every other outcome writes nothing. -/
inductive PrefsResult : Type
  | methodNotAllowed : PrefsResult
  | badRequest (msg : String) : PrefsResult
  | notFound (msg : String) : PrefsResult
  | forbidden (msg : String) : PrefsResult
  | ok (prefs : UserPreferences) : PrefsResult

/-- JavaScript falsiness of an optional request string
(`!x || typeof x !== 'string'`): absent or empty. -/
def jsFalsyStr : Option String → Bool
  | none => true
  | some s => decide (s = "")

/-- Save-preferences route handler (`handler`). `currentYear` and `now`
stand for the wall clock; `roomLookup` and `fetchedSeeds` are the
outcomes of the two external reads. -/
def preferencesHandler (currentYear : ℤ) (now : String) (method : String)
    (roomId participantId : Option String)
    (selectedGenres : Option (List ℤ)) (seedMovieIds : Option (List ℤ))
    (roomLookup : Option Room) (fetchedSeeds : List SeedMovie) : PrefsResult :=
  if method ≠ "POST" then .methodNotAllowed
  else if jsFalsyStr roomId then .badRequest "Room ID is required"
  else if jsFalsyStr participantId then .badRequest "Participant ID is required"
  else if (selectedGenres.getD []).length = 0 then
    .badRequest "At least one genre must be selected"
  else if (seedMovieIds.getD []).length ≠ 3 then
    .badRequest "Exactly 3 seed movies must be selected"
  else
    match roomLookup with
    | none => .notFound "Room not found"
    | some room =>
        if ¬ room.participants.any (fun p => some p.id == participantId) then
          .forbidden "Participant not found in room"
        else if fetchedSeeds.length ≠ 3 then
          .badRequest "Failed to fetch all seed movies. Please try again."
        else
          .ok { participantId := participantId.getD ""
                selectedGenres := selectedGenres.getD []
                seedMovies := fetchedSeeds
                profile := some (buildPreferenceProfile currentYear fetchedSeeds
                  (selectedGenres.getD []))
                createdAt := now }

/-! ## Auxiliary definitions for statements -/

/-- Effect of one seed-genre contribution on the stored score of the
genre being touched: `+3` if the slot is occupied (nonzero), else write
`5`. -/
def tweak (s : ℚ) : ℚ := if s ≠ 0 then s + 3 else 5

/-- Real value of the year-proximity component when the movie year `y`
parsed. -/
def yearProximity (p : PreferenceProfile) (y : ℤ) : ℚ :=
  Max.max (10 - |(y : ℚ) -
    ((p.preferredYearRange.1 : ℚ) + (p.preferredYearRange.2 : ℚ)) / 2| / 5) 0

/-! ## Concrete fixtures for witnesses and counterexamples -/

/-- Seed movie from 1960 (action). -/
def seedVintageA : SeedMovie := ⟨101, [28], [], 120, 1960, 7⟩

/-- Seed movie from 1960 (adventure). -/
def seedVintageB : SeedMovie := ⟨102, [12], [], 110, 1960, 8⟩

/-- Seed movie from 1960 (drama). -/
def seedVintageC : SeedMovie := ⟨103, [18], [], 100, 1960, 7⟩

/-- Seed movie whose keyword list mentions the same keyword twice. -/
def seedHeistTwice : SeedMovie := ⟨104, [28], ["heist", "heist"], 120, 2015, 7⟩

/-- Seed movie without keywords. -/
def seedNoKeywordsA : SeedMovie := ⟨105, [28], [], 110, 2016, 7⟩

/-- Seed movie without keywords (second). -/
def seedNoKeywordsB : SeedMovie := ⟨106, [12], [], 100, 2017, 8⟩

/-- Candidate movie fixture. -/
def movieAction : Movie := ⟨1, some 2020, 8, some [28], some 120, some 50⟩

/-- Candidate movie fixture (id 2). -/
def movieAdventure : Movie := ⟨2, some 2019, 7, some [12], some 110, some 40⟩

/-- Candidate sharing the id of `movieAdventure` with a different rating,
as a later page could resend it. -/
def movieAdventureAgain : Movie := ⟨2, some 2019, 15 / 2, some [12], some 110, some 40⟩

/-- Candidate movie fixture (id 3). -/
def movieComedy : Movie := ⟨3, some 2018, 6, some [35], none, none⟩

/-- Candidate with no parseable release date. -/
def movieNoDate : Movie := ⟨9, none, 7, some [28], some 120, some 50⟩

/-- Page-fetch outcomes where only page 1 succeeds. -/
def discoverPartialFail : ℕ → Except String (List Movie) :=
  fun page => if page = 1 then .ok [movieAction]
    else .error "Failed to discover movies"

/-- Page-fetch outcomes with two successful overlapping pages. -/
def discoverTwoPages : ℕ → Except String (List Movie) :=
  fun page =>
    if page = 1 then .ok [movieAction, movieAdventure]
    else if page = 2 then .ok [movieAdventureAgain, movieComedy]
    else .error "Failed to discover movies"

/-- Profile of user A with year range 1990-2000. -/
def profileUserA : PreferenceProfile := ⟨fun _ => 0, [], 120, (1990, 2000), 6⟩

/-- Profile of user B with year range 2010-2020. -/
def profileUserB : PreferenceProfile := ⟨fun _ => 0, [], 110, (2010, 2020), 6⟩

/-- Profile with nonnegative genre scores for the scoring fixtures. -/
def profileScored : PreferenceProfile :=
  ⟨fun g => if g = 28 then 10 else if g = 12 then 5 else 0, [], 120, (1980, 2024), 6⟩

/-- Ranking fixture: rated 7.5, year 2020, genres `{28, 12}`. -/
def rankedBothGenres : Movie := ⟨11, some 2020, 15 / 2, some [28, 12], none, none⟩

/-- Ranking fixture: rated 7.5, year 2020, genres `{28}`. -/
def rankedOneGenre : Movie := ⟨12, some 2020, 15 / 2, some [28], none, none⟩

/-! ## Lemmas: genre-score accumulation -/

lemma selectedGenresPass_foldl (sel : List ℤ) (f : ℤ → ℚ) (g : ℤ) :
    (sel.foldl (fun gs genreId => fupdate gs genreId 10) f) g =
      if g ∈ sel then 10 else f g := by
  induction sel generalizing f with
  | nil => simp
  | cons a sel ih =>
      simp only [List.foldl_cons, ih, List.mem_cons]
      by_cases hga : g = a
      · simp [hga, fupdate]
      · simp [hga, fupdate]

lemma selectedGenresPass_eq (sel : List ℤ) (g : ℤ) :
    selectedGenresPass sel g = if g ∈ sel then 10 else 0 := by
  simpa [selectedGenresPass] using selectedGenresPass_foldl sel (fun _ => 0) g

lemma seedGenreStep_at (gs : ℤ → ℚ) (a g : ℤ) :
    seedGenreStep gs a g = if g = a then tweak (gs a) else gs g := by
  by_cases h : gs a ≠ 0 <;> simp [seedGenreStep, fupdate, tweak, h]

lemma genres_foldl_count (l : List ℤ) (gs : ℤ → ℚ) (g : ℤ) :
    (l.foldl seedGenreStep gs) g = tweak^[l.count g] (gs g) := by
  induction l generalizing gs with
  | nil => simp
  | cons a l ih =>
      rw [List.foldl_cons, ih, seedGenreStep_at]
      by_cases hga : g = a
      · subst hga
        rw [if_pos rfl, List.count_cons_self, Function.iterate_succ_apply]
      · rw [if_neg hga]
        congr 1
        simp [List.count_cons, hga]

lemma seedMoviesPass_eq_flat (seeds : List SeedMovie) (gs : ℤ → ℚ) :
    seedMoviesPass seeds gs =
      ((seeds.map SeedMovie.genre_ids).flatten).foldl seedGenreStep gs := by
  induction seeds generalizing gs with
  | nil => rfl
  | cons s seeds ih =>
      simp only [seedMoviesPass, List.foldl_cons, List.map_cons,
        List.flatten_cons, List.foldl_append]
      exact ih _

lemma tweak_iterate_pos (k : ℕ) (s : ℚ) (hs : 0 < s) :
    tweak^[k] s = s + 3 * k := by
  induction k generalizing s with
  | zero => simp
  | succ k ih =>
      rw [Function.iterate_succ_apply]
      have h1 : tweak s = s + 3 := by simp [tweak, ne_of_gt hs]
      rw [h1, ih (s + 3) (by linarith)]
      push_cast
      ring

lemma tweak_iterate_from_zero (k : ℕ) :
    tweak^[k] (0 : ℚ) = if k = 0 then 0 else 5 + 3 * ((k : ℚ) - 1) := by
  cases k with
  | zero => simp
  | succ k =>
      rw [Function.iterate_succ_apply]
      have h0 : tweak (0 : ℚ) = 5 := by simp [tweak]
      rw [h0, tweak_iterate_pos k 5 (by norm_num)]
      rw [if_neg (Nat.succ_ne_zero k)]
      push_cast
      ring

/-! ## Lemmas: spread min and max -/

lemma foldl_min_le_init (xs : List ℤ) (a : ℤ) : xs.foldl min a ≤ a := by
  induction xs generalizing a with
  | nil => exact le_refl a
  | cons x xs ih => exact le_trans (ih (min a x)) (min_le_left a x)

lemma foldl_min_le_mem (xs : List ℤ) (a : ℤ) : ∀ y ∈ xs, xs.foldl min a ≤ y := by
  induction xs generalizing a with
  | nil => intro y hy; cases hy
  | cons x xs ih =>
      intro y hy
      rw [List.foldl_cons]
      rcases List.mem_cons.mp hy with h | h
      · subst h
        exact le_trans (foldl_min_le_init xs (min a y)) (min_le_right a y)
      · exact ih (min a x) y h

lemma foldl_min_mem (xs : List ℤ) (a : ℤ) : xs.foldl min a ∈ a :: xs := by
  induction xs generalizing a with
  | nil => simp
  | cons x xs ih =>
      rcases List.mem_cons.mp (ih (min a x)) with h | h
      · rcases min_choice a x with hc | hc <;> rw [List.foldl_cons, h, hc] <;> simp
      · simp [List.foldl_cons, List.mem_cons.mpr (Or.inr h)]

lemma jsMinList_le_mem (l : List ℤ) (y : ℤ) (hy : y ∈ l) : jsMinList l ≤ y := by
  cases l with
  | nil => cases hy
  | cons x xs =>
      rcases List.mem_cons.mp hy with h | h
      · exact h ▸ foldl_min_le_init xs x
      · exact foldl_min_le_mem xs x y h


lemma jsMinList_mem (l : List ℤ) (h : l ≠ []) : jsMinList l ∈ l := by
  cases l with
  | nil => exact absurd rfl h
  | cons x xs => exact foldl_min_mem xs x

lemma foldl_max_init_le (xs : List ℤ) (a : ℤ) : a ≤ xs.foldl max a := by
  induction xs generalizing a with
  | nil => exact le_refl a
  | cons x xs ih => exact le_trans (le_max_left a x) (ih (max a x))

lemma foldl_max_mem_le (xs : List ℤ) (a : ℤ) : ∀ y ∈ xs, y ≤ xs.foldl max a := by
  induction xs generalizing a with
  | nil => intro y hy; cases hy
  | cons x xs ih =>
      intro y hy
      rw [List.foldl_cons]
      rcases List.mem_cons.mp hy with h | h
      · subst h
        exact le_trans (le_max_right a y) (foldl_max_init_le xs (max a y))
      · exact ih (max a x) y h

lemma foldl_max_mem (xs : List ℤ) (a : ℤ) : xs.foldl max a ∈ a :: xs := by
  induction xs generalizing a with
  | nil => simp
  | cons x xs ih =>
      rcases List.mem_cons.mp (ih (max a x)) with h | h
      · rcases max_choice a x with hc | hc <;> rw [List.foldl_cons, h, hc] <;> simp
      · simp [List.foldl_cons, List.mem_cons.mpr (Or.inr h)]

lemma jsMaxList_mem_le (l : List ℤ) (y : ℤ) (hy : y ∈ l) : y ≤ jsMaxList l := by
  cases l with
  | nil => cases hy
  | cons x xs =>
      rcases List.mem_cons.mp hy with h | h
      · exact h ▸ foldl_max_init_le xs x
      · exact foldl_max_mem_le xs x y h

lemma jsMaxList_mem (l : List ℤ) (h : l ≠ []) : jsMaxList l ∈ l := by
  cases l with
  | nil => exact absurd rfl h
  | cons x xs => exact foldl_max_mem xs x

lemma jsMinList_le_jsMaxList (l : List ℤ) (h : l ≠ []) :
    jsMinList l ≤ jsMaxList l :=
  jsMinList_le_mem l (jsMaxList l) (jsMaxList_mem l h)

/-! ## Lemmas: object-key enumeration order -/

lemma mem_insertEntry {α : Type} [DecidableEq α] (l : List α) (a k : α) :
    k ∈ insertEntry l a ↔ k ∈ l ∨ k = a := by
  unfold insertEntry
  split_ifs with h
  · exact ⟨Or.inl, fun hk => hk.elim id (fun e => e ▸ h)⟩
  · simp

lemma mem_foldl_insertEntry {α : Type} [DecidableEq α] (l acc : List α) (k : α) :
    k ∈ l.foldl insertEntry acc ↔ k ∈ acc ∨ k ∈ l := by
  induction l generalizing acc with
  | nil => simp
  | cons a l ih =>
      rw [List.foldl_cons, ih, mem_insertEntry]
      simp [List.mem_cons]
      tauto

lemma mem_entryKeys {α : Type} [DecidableEq α] (l : List α) (k : α) :
    k ∈ entryKeys l ↔ k ∈ l := by
  simp [entryKeys, mem_foldl_insertEntry]

lemma nodup_insertEntry {α : Type} [DecidableEq α] (l : List α) (a : α)
    (h : l.Nodup) : (insertEntry l a).Nodup := by
  unfold insertEntry
  split_ifs with hm
  · exact h
  · simpa [List.nodup_append, h] using hm

lemma nodup_foldl_insertEntry {α : Type} [DecidableEq α] (l acc : List α)
    (h : acc.Nodup) : (l.foldl insertEntry acc).Nodup := by
  induction l generalizing acc with
  | nil => exact h
  | cons a l ih => exact ih (insertEntry acc a) (nodup_insertEntry acc a h)

lemma nodup_entryKeys {α : Type} [DecidableEq α] (l : List α) :
    (entryKeys l).Nodup :=
  nodup_foldl_insertEntry l [] List.nodup_nil

/-! ## Lemmas: promise aggregation -/

lemma promiseAll_ok_iff {ε α : Type} (l : List (Except ε α)) :
    (∃ as, promiseAll l = .ok as) ↔ ∀ x ∈ l, ∃ a, x = .ok a := by
  induction l with
  | nil => simp [promiseAll]
  | cons x l ih =>
      cases x with
      | error e => simp [promiseAll]
      | ok a =>
          rcases hp : promiseAll l with e | as
          · simp only [promiseAll, hp, Except.map_error]
            constructor
            · rintro ⟨as, has⟩
              cases has
            · intro h
              have := ih.mpr (fun x hx => h x (List.mem_cons_of_mem _ hx))
              rw [hp] at this
              rcases this with ⟨as, has⟩
              cases has
          · simp only [promiseAll, hp, Except.map_ok, List.forall_mem_cons]
            constructor
            · intro _
              refine ⟨⟨a, rfl⟩, ?_⟩
              exact ih.mp ⟨as, hp⟩
            · intro _
              exact ⟨a :: as, rfl⟩

lemma except_map_ok_iff {ε α β : Type} (f : α → β) (x : Except ε α) :
    (∃ b, x.map f = .ok b) ↔ ∃ a, x = .ok a := by
  cases x <;> simp [Except.map]

lemma except_error_iff_no_ok {ε α : Type} (x : Except ε α) :
    (∃ e, x = .error e) ↔ ¬ ∃ a, x = .ok a := by
  cases x <;> simp

/-! ## Lemmas: id-keyed Map deduplication -/

lemma map_id_mapUpsert (acc : List Movie) (m : Movie) :
    (mapUpsert acc m).map Movie.id = insertEntry (acc.map Movie.id) m.id := by
  have hcond : (acc.any fun x => x.id = m.id) = true ↔ m.id ∈ acc.map Movie.id := by
    simp only [List.any_eq_true, decide_eq_true_eq, List.mem_map]
  unfold mapUpsert insertEntry
  by_cases h : (acc.any fun x => x.id = m.id) = true
  · rw [if_pos h, if_pos (hcond.mp h), List.map_map]
    refine List.map_congr_left ?_
    intro x _
    by_cases hx : x.id = m.id <;> simp [hx]
  · rw [if_neg h, if_neg (fun hm => h (hcond.mpr hm))]
    simp

lemma map_id_foldl_mapUpsert (l acc : List Movie) :
    (l.foldl mapUpsert acc).map Movie.id =
      (l.map Movie.id).foldl insertEntry (acc.map Movie.id) := by
  induction l generalizing acc with
  | nil => rfl
  | cons m l ih =>
      rw [List.foldl_cons, ih, map_id_mapUpsert, List.map_cons, List.foldl_cons]

lemma map_id_jsMapDedupe (l : List Movie) :
    (jsMapDedupe l).map Movie.id = entryKeys (l.map Movie.id) := by
  simpa [jsMapDedupe, entryKeys] using map_id_foldl_mapUpsert l []

/-! ## Lemmas: score normalization -/

lemma yearScoreJS_none (m : Movie) (p : PreferenceProfile)
    (h : m.release_year = none) : yearScoreJS m p = JSNum.nan := by
  simp [yearScoreJS, h, JSNum.sub, JSNum.abs, JSNum.div, JSNum.max]

lemma yearScoreJS_some (m : Movie) (p : PreferenceProfile) (y : ℤ)
    (h : m.release_year = some y) :
    yearScoreJS m p = JSNum.num (yearProximity p y) := by
  simp only [yearScoreJS, h, yearProximity, JSNum.sub, JSNum.abs, JSNum.div, JSNum.max]
  rw [if_neg (by norm_num : (5 : ℚ) ≠ 0)]

lemma scoreMovie_none (m : Movie) (p : PreferenceProfile)
    (h : m.release_year = none) : scoreMovie m p = JSNum.nan := by
  simp [scoreMovie, yearScoreJS_none m p h, JSNum.add]

lemma scoreMovie_some (m : Movie) (p : PreferenceProfile) (y : ℤ)
    (h : m.release_year = some y) :
    scoreMovie m p = JSNum.num (genreMatchScore m p + runtimeScore m p +
      yearProximity p y + ratingBonusScore m p + popularityScore m) := by
  simp [scoreMovie, yearScoreJS_some m p y h, JSNum.add]

/-! ## Lemmas: ranking comparator -/

lemma rankLe_eq_true_iff (sel : List ℤ) (a b : Movie) :
    rankLe sel a b = true ↔
      (b.vote_average < a.vote_average ∨
        (a.vote_average = b.vote_average ∧
          (b.release_year.getD 0 < a.release_year.getD 0 ∨
            (a.release_year.getD 0 = b.release_year.getD 0 ∧
              genreOverlap sel b ≤ genreOverlap sel a)))) := by
  unfold rankLe
  by_cases hv : a.vote_average = b.vote_average
  · rw [if_neg (not_not_intro hv)]
    by_cases hy : a.release_year.getD 0 = b.release_year.getD 0
    · rw [if_neg (not_not_intro hy)]
      simp [hv, hy, lt_self_iff_false]
    · rw [if_pos hy]
      simp [hv, hy, lt_self_iff_false]
  · rw [if_pos hv]
    simp [hv]

lemma rankLe_total (sel : List ℤ) (a b : Movie) :
    (rankLe sel a b || rankLe sel b a) = true := by
  rw [Bool.or_eq_true, rankLe_eq_true_iff, rankLe_eq_true_iff]
  rcases lt_trichotomy a.vote_average b.vote_average with h | h | h
  · exact Or.inr (Or.inl h)
  · rcases lt_trichotomy (a.release_year.getD 0) (b.release_year.getD 0) with h2 | h2 | h2
    · exact Or.inr (Or.inr ⟨h.symm, Or.inl h2⟩)
    · rcases le_total (genreOverlap sel b) (genreOverlap sel a) with h3 | h3
      · exact Or.inl (Or.inr ⟨h, Or.inr ⟨h2, h3⟩⟩)
      · exact Or.inr (Or.inr ⟨h.symm, Or.inr ⟨h2.symm, h3⟩⟩)
    · exact Or.inl (Or.inr ⟨h, Or.inl h2⟩)
  · exact Or.inl (Or.inl h)

lemma rankLe_trans (sel : List ℤ) (a b c : Movie)
    (hab : rankLe sel a b = true) (hbc : rankLe sel b c = true) :
    rankLe sel a c = true := by
  rw [rankLe_eq_true_iff] at hab hbc ⊢
  rcases hab with h1 | ⟨hv1, h1⟩
  · rcases hbc with h2 | ⟨hv2, h2⟩
    · exact Or.inl (lt_trans h2 h1)
    · exact Or.inl (lt_of_eq_of_lt hv2.symm h1)
  · rcases hbc with h2 | ⟨hv2, h2⟩
    · exact Or.inl (lt_of_lt_of_eq h2 hv1.symm)
    · refine Or.inr ⟨hv1.trans hv2, ?_⟩
      rcases h1 with hy1 | ⟨hye1, ho1⟩
      · rcases h2 with hy2 | ⟨hye2, ho2⟩
        · exact Or.inl (lt_trans hy2 hy1)
        · exact Or.inl (lt_of_eq_of_lt hye2.symm hy1)
      · rcases h2 with hy2 | ⟨hye2, ho2⟩
        · exact Or.inl (lt_of_lt_of_eq hy2 hye1.symm)
        · exact Or.inr ⟨hye1.trans hye2, le_trans ho2 ho1⟩

/-! ## Claim theorems -/

/-- C3: the genre-score accumulation is the exact two-pass order-dependent
scheme: explicit genres are written 10 first; then each occurrence of a
genre on a seed movie (seed movies in input order) adds 5 to an
absent/unscored genre and 3 to a present one. Equivalently, writing `k`
for the number of occurrences of genre `g` across the seed movies' genre
lists, the final score of `g` is `10 + 3k` when `g` is explicitly
selected (so `13` for one seed occurrence), `0` when `k = 0`, and
`5 + 3(k - 1)` otherwise. -/
theorem genre_score_two_pass_closed_form (currentYear : ℤ)
    (seeds : List SeedMovie) (sel : List ℤ) (g : ℤ) :
    (buildPreferenceProfile currentYear seeds sel).genreScores g =
      if g ∈ sel then
        10 + 3 * (((seeds.map SeedMovie.genre_ids).flatten).count g : ℚ)
      else if ((seeds.map SeedMovie.genre_ids).flatten).count g = 0 then 0
      else 5 + 3 * ((((seeds.map SeedMovie.genre_ids).flatten).count g : ℚ) - 1) := by
  have hgs : (buildPreferenceProfile currentYear seeds sel).genreScores g =
      tweak^[((seeds.map SeedMovie.genre_ids).flatten).count g]
        (selectedGenresPass sel g) := by
    simp only [buildPreferenceProfile]
    rw [seedMoviesPass_eq_flat, genres_foldl_count]
  rw [hgs, selectedGenresPass_eq]
  by_cases hmem : g ∈ sel
  · rw [if_pos hmem, if_pos hmem, tweak_iterate_pos _ _ (by norm_num)]
  · rw [if_neg hmem, if_neg hmem, tweak_iterate_from_zero]

/-- C4 (code bug evaluation): a keyword listed twice by a single seed
movie is retained in the profile even though it appears in only 1 of the
3 seed movies, because the source counts occurrences across the
concatenated keyword lists, not movies containing the keyword —
contradicting its own comment "Keep keywords that appear in at least 2
movies". -/
theorem duplicate_keyword_single_movie_retained :
    "heist" ∈ (buildPreferenceProfile 2026
        [seedHeistTwice, seedNoKeywordsA, seedNoKeywordsB] [28]).keywords ∧
      ([seedHeistTwice, seedNoKeywordsA, seedNoKeywordsB].countP
        (fun m => "heist" ∈ m.keywords)) = 1 := by
  constructor <;> decide

/-- C4 general characterization (what the code actually does): a keyword
is retained iff its total occurrence count across the three concatenated
keyword lists is at least 2. -/
lemma keyword_retention_by_occurrences (currentYear : ℤ)
    (seeds : List SeedMovie) (sel : List ℤ) (kw : String) :
    kw ∈ (buildPreferenceProfile currentYear seeds sel).keywords ↔
      2 ≤ (allSeedKeywords seeds).count kw := by
  simp only [buildPreferenceProfile, List.mem_filter, mem_entryKeys,
    decide_eq_true_eq]
  constructor
  · exact fun h => h.2
  · intro h
    refine ⟨?_, h⟩
    exact List.count_pos_iff.mp (lt_of_lt_of_le (by norm_num) h)

/-- C2 (amended): both clamps always hold — the low bound is at least
1980 and the high bound at most currentYear + 1 — but the ordering
`low <= high` is not unconditional: for a nonempty seed list it holds iff
the earliest seed year is at most currentYear + 6, the latest seed year
is at least 1977, and the current year is at least 1979. Seed years far
in the past or far in the future therefore invert the range. -/
theorem year_range_clamped_and_order_iff (currentYear : ℤ)
    (seeds : List SeedMovie) (sel : List ℤ) (h : seeds ≠ []) :
    1980 ≤ (buildPreferenceProfile currentYear seeds sel).preferredYearRange.1 ∧
    (buildPreferenceProfile currentYear seeds sel).preferredYearRange.2 ≤
      currentYear + 1 ∧
    ((buildPreferenceProfile currentYear seeds sel).preferredYearRange.1 ≤
        (buildPreferenceProfile currentYear seeds sel).preferredYearRange.2 ↔
      (jsMinList (seeds.map SeedMovie.release_year) ≤ currentYear + 6 ∧
        1977 ≤ jsMaxList (seeds.map SeedMovie.release_year) ∧
        1979 ≤ currentYear)) := by
  have hne : seeds.map SeedMovie.release_year ≠ [] := by
    simpa using h
  have hmm := jsMinList_le_jsMaxList _ hne
  simp only [buildPreferenceProfile]
  refine ⟨le_max_right _ _, min_le_right _ _, ?_⟩
  rw [max_le_iff, le_min_iff, le_min_iff]
  omega

/-- C2 witness: the amended statement evaluated at three 1960 seed
movies with current year 2026. -/
theorem year_range_clamped_witness :
    1980 ≤ (buildPreferenceProfile 2026 [seedVintageA, seedVintageB, seedVintageC]
        [28]).preferredYearRange.1 ∧
    (buildPreferenceProfile 2026 [seedVintageA, seedVintageB, seedVintageC]
        [28]).preferredYearRange.2 ≤ 2026 + 1 ∧
    ((buildPreferenceProfile 2026 [seedVintageA, seedVintageB, seedVintageC]
            [28]).preferredYearRange.1 ≤
        (buildPreferenceProfile 2026 [seedVintageA, seedVintageB, seedVintageC]
            [28]).preferredYearRange.2 ↔
      (jsMinList ([seedVintageA, seedVintageB, seedVintageC].map
          SeedMovie.release_year) ≤ 2026 + 6 ∧
        1977 ≤ jsMaxList ([seedVintageA, seedVintageB, seedVintageC].map
          SeedMovie.release_year) ∧
        1979 ≤ (2026 : ℤ))) :=
  year_range_clamped_and_order_iff 2026 [seedVintageA, seedVintageB, seedVintageC]
    [28] (by decide)

/-- C2 counterexample: three seed movies all released in 1960 (current
year 2026) yield `preferredYearRange = (1980, 1963)`, violating
`preferredYearRange[0] <= preferredYearRange[1]` even though both clamps
hold. -/
theorem year_range_inverted_for_1960_seeds :
    (buildPreferenceProfile 2026 [seedVintageA, seedVintageB, seedVintageC]
        [28]).preferredYearRange = (1980, 1963) ∧
    ¬ ((buildPreferenceProfile 2026 [seedVintageA, seedVintageB, seedVintageC]
          [28]).preferredYearRange.1 ≤
        (buildPreferenceProfile 2026 [seedVintageA, seedVintageB, seedVintageC]
          [28]).preferredYearRange.2) := by
  constructor <;> decide

/-- C10: the Scorer is total (real-valued) only on movies with a
parseable release date: the year-proximity component has no
missing-field guard, so a movie whose release date is absent or
unparseable makes the whole score `NaN`; with a parseable date the score
is the real sum of the five components (the runtime and popularity
components being 0 when their field is missing, as their definitions
show). -/
theorem score_nan_without_parseable_date (m : Movie) (p : PreferenceProfile) :
    (m.release_year = none → scoreMovie m p = JSNum.nan) ∧
      (∀ y, m.release_year = some y →
        scoreMovie m p = JSNum.num (genreMatchScore m p + runtimeScore m p +
          yearProximity p y + ratingBonusScore m p + popularityScore m)) :=
  ⟨fun h => scoreMovie_none m p h, fun y h => scoreMovie_some m p y h⟩

/-- C10 witness: a concrete movie with no parseable release date scores
`NaN`. -/
theorem score_nan_without_parseable_date_witness :
    scoreMovie movieNoDate profileScored = JSNum.nan :=
  (score_nan_without_parseable_date movieNoDate profileScored).1 rfl

/-- C1 (amended): candidate retrieval does NOT fail softly — it succeeds
iff every issued page fetch succeeds, and it fails (propagating a failed
page's error) iff at least one issued page fetch fails, because
`Promise.all` rejects on the first rejection. -/
theorem fetch_fails_iff_any_page_fails
    (discover : ℕ → Except String (List Movie)) (maxMovies : ℕ) :
    ((∃ ms, fetchCandidateMovies discover maxMovies = .ok ms) ↔
      ∀ i ∈ List.range (pagesToFetch maxMovies), ∃ page, discover (i + 1) = .ok page) ∧
    ((∃ e, fetchCandidateMovies discover maxMovies = .error e) ↔
      ∃ i ∈ List.range (pagesToFetch maxMovies), ∃ e, discover (i + 1) = .error e) := by
  have hok : (∃ ms, fetchCandidateMovies discover maxMovies = .ok ms) ↔
      ∀ x ∈ (List.range (pagesToFetch maxMovies)).map (fun i => discover (i + 1)),
        ∃ page, x = .ok page := by
    unfold fetchCandidateMovies
    rw [except_map_ok_iff]
    exact promiseAll_ok_iff _
  have hmap : (∀ x ∈ (List.range (pagesToFetch maxMovies)).map
        (fun i => discover (i + 1)), ∃ page, x = .ok page) ↔
      ∀ i ∈ List.range (pagesToFetch maxMovies), ∃ page, discover (i + 1) = .ok page := by
    constructor
    · intro h i hi
      exact h _ (List.mem_map_of_mem _ hi)
    · intro h x hx
      rcases List.mem_map.mp hx with ⟨i, hi, rfl⟩
      exact h i hi
  refine ⟨hok.trans hmap, ?_⟩
  rw [except_error_iff_no_ok, hok.trans hmap]
  constructor
  · intro h
    push_neg at h
    rcases h with ⟨i, hi, hno⟩
    rcases hd : discover (i + 1) with e | page
    · exact ⟨i, hi, e, hd⟩
    · exact absurd hd (hno page)
  · rintro ⟨i, hi, e, he⟩ hall
    rcases hall i hi with ⟨page, hp⟩
    rw [he] at hp
    cases hp

/-- C1 counterexample: with two issued pages where page 1 succeeds and
page 2 fails, `fetchCandidateMovies` rejects with the page error instead
of succeeding with page 1's movies, refuting "if at least one page fetch
succeeds, fetchCandidateMovies succeeds". -/
theorem fetch_single_page_failure_aborts :
    discoverPartialFail 1 = .ok [movieAction] ∧
      pagesToFetch 40 = 2 ∧
      fetchCandidateMovies discoverPartialFail 40 =
        .error "Failed to discover movies" := by
  refine ⟨rfl, rfl, ?_⟩
  rfl

/-- C5: the save-preferences operation rejects with a 400 validation
error — immediately, before any external lookup is consulted and with no
profile built — whenever the explicit genre set is missing or empty, or
the number of supplied seed movie ids differs from 3. -/
theorem preferences_validation_rejects (currentYear : ℤ) (now method : String)
    (roomId participantId : Option String)
    (selectedGenres seedMovieIds : Option (List ℤ))
    (roomLookup : Option Room) (fetchedSeeds : List SeedMovie)
    (hm : method = "POST") (hr : jsFalsyStr roomId = false)
    (hp : jsFalsyStr participantId = false)
    (hbad : (selectedGenres.getD []).length = 0 ∨
      (seedMovieIds.getD []).length ≠ 3) :
    ∃ msg, preferencesHandler currentYear now method roomId participantId
        selectedGenres seedMovieIds roomLookup fetchedSeeds =
      PrefsResult.badRequest msg := by
  subst hm
  unfold preferencesHandler
  rw [if_neg (by simp)]
  rw [if_neg (by simp [hr])]
  rw [if_neg (by simp [hp])]
  by_cases hg : (selectedGenres.getD []).length = 0
  · exact ⟨_, by rw [if_pos hg]⟩
  · rcases hbad with hbad | hbad
    · exact absurd hbad hg
    · exact ⟨_, by rw [if_neg hg, if_pos hbad]⟩

/-- C5 witness: a POST with valid room and participant ids but an empty
genre list is rejected with a validation error. -/
theorem preferences_validation_rejects_witness :
    ∃ msg, preferencesHandler 2026 "2026-02-03" "POST" (some "ROOM42")
        (some "participant-1") (some []) (some [1, 2, 3]) none [] =
      PrefsResult.badRequest msg :=
  preferences_validation_rejects 2026 "2026-02-03" "POST" (some "ROOM42")
    (some "participant-1") (some []) (some [1, 2, 3]) none [] rfl
    (by decide) (by decide) (Or.inl rfl)

/-- C6: the aggregated group profile's year range is the widest union of
the per-user ranges: its low bound is a lower bound of, and attained by,
the users' low bounds, and dually its high bound is an upper bound of,
and attained by, the users' high bounds. -/
theorem group_year_range_is_union (profiles : List PreferenceProfile)
    (h : profiles ≠ []) :
    (∀ p ∈ profiles,
      (aggregateProfiles profiles).preferredYearRange.1 ≤ p.preferredYearRange.1 ∧
      p.preferredYearRange.2 ≤ (aggregateProfiles profiles).preferredYearRange.2) ∧
    (aggregateProfiles profiles).preferredYearRange.1 ∈
      profiles.map (fun p => p.preferredYearRange.1) ∧
    (aggregateProfiles profiles).preferredYearRange.2 ∈
      profiles.map (fun p => p.preferredYearRange.2) := by
  have h1 : (aggregateProfiles profiles).preferredYearRange.1 =
      jsMinList (profiles.map (fun p => p.preferredYearRange.1)) := by
    simp [aggregateProfiles]
  have h2 : (aggregateProfiles profiles).preferredYearRange.2 =
      jsMaxList (profiles.map (fun p => p.preferredYearRange.2)) := by
    simp [aggregateProfiles]
  refine ⟨fun p hp => ⟨?_, ?_⟩, ?_, ?_⟩
  · rw [h1]
    exact jsMinList_le_mem _ _ (List.mem_map_of_mem _ hp)
  · rw [h2]
    exact jsMaxList_mem_le _ _ (List.mem_map_of_mem _ hp)
  · rw [h1]
    exact jsMinList_mem _ (by simpa using h)
  · rw [h2]
    exact jsMaxList_mem _ (by simpa using h)

/-- C6 witness: users with ranges [1990, 2000] and [2010, 2020] aggregate
to the union [1990, 2020], and the general union bounds hold there. -/
theorem group_year_range_is_union_witness :
    (aggregateProfiles [profileUserA, profileUserB]).preferredYearRange =
      (1990, 2020) ∧
    ((∀ p ∈ [profileUserA, profileUserB],
      (aggregateProfiles [profileUserA, profileUserB]).preferredYearRange.1 ≤
        p.preferredYearRange.1 ∧
      p.preferredYearRange.2 ≤
        (aggregateProfiles [profileUserA, profileUserB]).preferredYearRange.2) ∧
    (aggregateProfiles [profileUserA, profileUserB]).preferredYearRange.1 ∈
      [profileUserA, profileUserB].map (fun p => p.preferredYearRange.1) ∧
    (aggregateProfiles [profileUserA, profileUserB]).preferredYearRange.2 ∈
      [profileUserA, profileUserB].map (fun p => p.preferredYearRange.2)) :=
  ⟨by decide, group_year_range_is_union [profileUserA, profileUserB]
    (List.cons_ne_nil _ _)⟩

/-- C7: the Scorer is monotonic in genre overlap: for a profile with
nonnegative genre scores, appending to a movie a genre present in the
profile (holding all other fields fixed) never decreases the returned
score — the new score is never JavaScript-less-than the old one, in both
the real-valued and the NaN case — and the genre-match component of the
extended movie stays capped at 30 points. -/
theorem score_monotone_in_genre_overlap (m : Movie) (p : PreferenceProfile)
    (g : ℤ) (hnn : ∀ x, 0 ≤ p.genreScores x) (hg : 0 < p.genreScores g) :
    JSNum.lt (scoreMovie (addGenre m g) p) (scoreMovie m p) = false ∧
      genreMatchScore (addGenre m g) p ≤ 30 := by
  have hgm : genreMatchScore m p ≤ genreMatchScore (addGenre m g) p := by
    unfold genreMatchScore addGenre
    cases hgi : m.genre_ids with
    | none =>
        simp only [hgi, Option.getD_none, List.nil_append, List.foldl_cons,
          List.foldl_nil, zero_add]
        exact le_min (hnn g) (by norm_num)
    | some gids =>
        simp only [hgi, Option.getD_some, List.foldl_append, List.foldl_cons,
          List.foldl_nil]
        exact min_le_min (by linarith [hnn g]) (le_refl 30)
  have hyr : (addGenre m g).release_year = m.release_year := rfl
  constructor
  · cases hy : m.release_year with
    | none =>
        rw [scoreMovie_none m p hy, scoreMovie_none (addGenre m g) p
          (hyr.trans hy)]
        rfl
    | some y =>
        rw [scoreMovie_some m p y hy, scoreMovie_some (addGenre m g) p y
          (hyr.trans hy)]
        simp only [JSNum.lt, decide_eq_false_iff_not, not_lt]
        have hrt : runtimeScore (addGenre m g) p = runtimeScore m p := rfl
        have hrb : ratingBonusScore (addGenre m g) p = ratingBonusScore m p := rfl
        have hpp : popularityScore (addGenre m g) = popularityScore m := rfl
        rw [hrt, hrb, hpp]
        linarith [hgm]
  · unfold genreMatchScore addGenre
    exact min_le_right _ _

/-- C7 witness: the monotonicity and the 30-point cap at a concrete
movie, profile and matching genre. -/
theorem score_monotone_in_genre_overlap_witness :
    JSNum.lt (scoreMovie (addGenre movieAction 12) profileScored)
        (scoreMovie movieAction profileScored) = false ∧
      genreMatchScore (addGenre movieAction 12) profileScored ≤ 30 :=
  score_monotone_in_genre_overlap movieAction profileScored 12
    (by
      intro x
      simp only [profileScored]
      split_ifs <;> norm_num)
    (by norm_num [profileScored])

/-- C8: on every successful retrieval the returned pool is the merged
pages deduplicated by movie id — each id occurs exactly once, at the
position of its first occurrence in the merged page order — and then
truncated to the target size. -/
theorem fetch_dedup_first_seen_truncated
    (discover : ℕ → Except String (List Movie)) (maxMovies : ℕ)
    (ms : List Movie)
    (h : fetchCandidateMovies discover maxMovies = .ok ms) :
    ∃ pages : List (List Movie),
      promiseAll ((List.range (pagesToFetch maxMovies)).map
        (fun i => discover (i + 1))) = .ok pages ∧
      ms = (jsMapDedupe pages.flatten).take maxMovies ∧
      ms.map Movie.id = (entryKeys (pages.flatten.map Movie.id)).take maxMovies ∧
      (ms.map Movie.id).Nodup := by
  unfold fetchCandidateMovies at h
  rcases hp : promiseAll ((List.range (pagesToFetch maxMovies)).map
      (fun i => discover (i + 1))) with e | pages
  · rw [hp] at h
    cases h
  · rw [hp] at h
    simp only [Except.map, Except.ok.injEq] at h
    have hms : ms = (jsMapDedupe pages.flatten).take maxMovies := by
      rw [← h]
      rfl
    have hids : ms.map Movie.id =
        (entryKeys (pages.flatten.map Movie.id)).take maxMovies := by
      rw [hms, List.map_take, map_id_jsMapDedupe]
    refine ⟨pages, rfl, hms, hids, ?_⟩
    rw [hids]
    exact List.Nodup.sublist (List.take_sublist _ _) (nodup_entryKeys _)

/-- C8 witness: two overlapping successful pages; the repeated id 2
occurs once, at its first-seen position, in the truncated output. -/
theorem fetch_dedup_first_seen_truncated_witness :
    ∃ pages : List (List Movie),
      promiseAll ((List.range (pagesToFetch 40)).map
        (fun i => discoverTwoPages (i + 1))) = .ok pages ∧
      [movieAction, movieAdventureAgain, movieComedy] =
        (jsMapDedupe pages.flatten).take 40 ∧
      [movieAction, movieAdventureAgain, movieComedy].map Movie.id =
        (entryKeys (pages.flatten.map Movie.id)).take 40 ∧
      ([movieAction, movieAdventureAgain, movieComedy].map Movie.id).Nodup :=
  fetch_dedup_first_seen_truncated discoverTwoPages 40
    [movieAction, movieAdventureAgain, movieComedy] (by rfl)

/-- C9: the ranking utility returns a permutation of the pool that is
sorted by rating descending, then release year descending, then count of
genre ids overlapping the selected-genre set descending (so with equal
rating and year, the movie sharing more selected genres ranks first);
stated for pools whose release dates all parse, where the embedded
comparator coincides with the source's. -/
theorem rank_movies_lex_order (movies : List Movie) (sel : List ℤ)
    (_hy : ∀ m ∈ movies, (m.release_year).isSome = true) :
    (rankMovies movies sel).Perm movies ∧
      (rankMovies movies sel).Pairwise (fun a b =>
        b.vote_average < a.vote_average ∨
          (a.vote_average = b.vote_average ∧
            (b.release_year.getD 0 < a.release_year.getD 0 ∨
              (a.release_year.getD 0 = b.release_year.getD 0 ∧
                genreOverlap sel b ≤ genreOverlap sel a)))) := by
  unfold rankMovies
  constructor
  · exact List.mergeSort_perm movies (rankLe sel)
  · have hs := List.sorted_mergeSort (rankLe_trans sel) (rankLe_total sel) movies
    exact hs.imp (fun hab => (rankLe_eq_true_iff sel _ _).mp hab)

/-- C9 witness: two movies with identical rating 7.5 and identical year
2020, selected genres 28 and 12; the movie with both selected genres
ranks above the one with only genre 28 by the overlap tiebreak. -/
theorem rank_movies_lex_order_witness :
    (rankMovies [rankedOneGenre, rankedBothGenres] [28, 12]).Perm
        [rankedOneGenre, rankedBothGenres] ∧
      (rankMovies [rankedOneGenre, rankedBothGenres] [28, 12]).Pairwise
        (fun a b =>
          b.vote_average < a.vote_average ∨
            (a.vote_average = b.vote_average ∧
              (b.release_year.getD 0 < a.release_year.getD 0 ∨
                (a.release_year.getD 0 = b.release_year.getD 0 ∧
                  genreOverlap [28, 12] b ≤ genreOverlap [28, 12] a)))) :=
  rank_movies_lex_order [rankedOneGenre, rankedBothGenres] [28, 12] (by decide)
